import Mathlib

set_option maxRecDepth 8192

/-!
Shallow embedding of `src/examples/demo.py` (the batless demo script):
the `DatabaseManager` query cache and the `process_data` type dispatcher.

Modelling conventions:
- Python's `hash` is modelled as the identity on strings (an injective
  idealization); the cache key therefore embeds the exact query text and
  the exact `str(params)` rendering, as the source interpolates their hashes.
- `datetime.now().isoformat()` is modelled by passing the current time into
  `query` as an explicit string argument.
- `print` side effects are dropped for `query`/`connect`; for `process_data`
  the diagnostic prints are collected in an explicit list, since the claims
  count them.
- Python exceptions are modelled with `Except String`, the error string
  standing for the raised exception and its message.
-/

/-- A Python value, covering the shapes the demo script feeds to
`process_data`: strings, ints, bools, lists, and dicts. A dict is modelled
with string keys and string values (enough for the script's uses); `None`
values are not a constructor because `dict.get` cannot distinguish a stored
`None` from an absent key, so both are modelled by `Option.none` at the
field level. -/
inductive PyValue where
  | str (s : String)
  | int (n : Int)
  | bool (b : Bool)
  | list (l : List PyValue)
  | dict (pairs : List (String × String))

/-- The Python class name of a value, as in error messages. -/
def PyValue.typeName : PyValue → String
  | .str _ => "str"
  | .int _ => "int"
  | .bool _ => "bool"
  | .list _ => "list"
  | .dict _ => "dict"

/-- Python truthiness of a value (`bool(v)`). -/
def PyValue.truthy : PyValue → Bool
  | .str s => !(s == "")
  | .int n => !(n == 0)
  | .bool b => b
  | .list l => !l.isEmpty
  | .dict pairs => !pairs.isEmpty

mutual

/-- Python `repr(v)` (simplified: strings are wrapped in single quotes with
no escaping, which is exact for strings free of quotes, backslashes and
control characters — all that the script uses). -/
def pyRepr : PyValue → String
  | .str s => "\x27" ++ s ++ "\x27"
  | .int n => toString n
  | .bool b => if b then "True" else "False"
  | .list l => "[" ++ String.intercalate ", " (pyReprList l) ++ "]"
  | .dict pairs =>
      "\x7b" ++
        String.intercalate ", "
          (pairs.map (fun p => "\x27" ++ p.1 ++ "\x27: \x27" ++ p.2 ++ "\x27")) ++
      "\x7d"

/-- `repr` of each element of a list, in order. -/
def pyReprList : List PyValue → List String
  | [] => []
  | v :: vs => pyRepr v :: pyReprList vs

end

/-- Python `str(v)`: the raw string for strings, `repr` otherwise (they
coincide for ints, bools, lists and dicts). -/
def pyStr : PyValue → String
  | .str s => s
  | v => pyRepr v

/-- Python `v * 2`: ints (and bools, which are ints) double, strings and
lists repeat; a dict raises `TypeError` (`none`). -/
def pyMulTwo : PyValue → Option PyValue
  | .int n => some (.int (n * 2))
  | .bool b => some (.int ((if b then (1 : Int) else 0) * 2))
  | .str s => some (.str (s ++ s))
  | .list l => some (.list (l ++ l))
  | .dict _ => none

/- ## DatabaseManager -/

/-- The result record built by `DatabaseManager.query` on a cache miss:
`{"sql": sql, "params": cleaned_params, "timestamp": ..., "rows_affected": len(cleaned_params)}`. -/
structure QueryResult where
  sql : String
  params : List String
  timestamp : String
  rows_affected : Nat
deriving DecidableEq, Repr

deriving instance DecidableEq for Except

/-- The state of a `DatabaseManager` instance: the connection string, the
`_cache` dict (modelled as an association list, newest entry first, looked
up by first match), and the `is_connected` flag. -/
structure DatabaseManager where
  connection : String
  cache : List (String × QueryResult)
  is_connected : Bool
deriving DecidableEq, Repr

/-- `DatabaseManager(connection_string)`: empty cache, not connected. -/
def DatabaseManager.mk0 (connection_string : String) : DatabaseManager :=
  ⟨connection_string, [], false⟩

/-- Python `str(params)` for `params : Optional[List[str]]`:
`"None"` for `None`, the list rendering with `repr` of each element
otherwise. -/
def pyStrParams : Option (List String) → String
  | none => "None"
  | some l =>
      "[" ++ String.intercalate ", " (l.map (fun p => "\x27" ++ p ++ "\x27")) ++ "]"

/-- `cache_key = f"query_{hash(sql)}_{hash(str(params))}"`, with `hash`
modelled as the identity on strings. -/
def cacheKey (sql : String) (params : Option (List String)) : String :=
  "query_" ++ sql ++ "_" ++ pyStrParams params

/-- Python `s.strip()`: drop leading and trailing whitespace. Defined
structurally over the character list so that it evaluates by reduction. -/
def pyStrip (s : String) : String :=
  ⟨((s.data.dropWhile Char.isWhitespace).reverse.dropWhile Char.isWhitespace).reverse⟩

/-- `cleaned_params = [p.strip() for p in (params or []) if p]`: the raw
entries are filtered for truthiness (non-emptiness) first, and the surviving
entries are stripped. -/
def cleanParams (params : Option (List String)) : List String :=
  ((params.getD []).filter (fun p => !(p == ""))).map pyStrip

/-- `DatabaseManager.connect`: the `try` body prints, sets
`is_connected = True` and returns `True`; no statement in the body can raise
`ConnectionError`, so the `except` branch is unreachable and the method is
modelled by the body alone. -/
def DatabaseManager.connect (db : DatabaseManager) : Bool × DatabaseManager :=
  (true, { db with is_connected := true })

/-- `DatabaseManager.query(sql, params)`: raise `RuntimeError` when not
connected; otherwise derive the cache key, return the stored record on a
hit (state unchanged), and on a miss build a fresh record from the cleaned
parameters and the current time `now`, store it, and return it. -/
def DatabaseManager.query (db : DatabaseManager) (sql : String)
    (params : Option (List String)) (now : String) :
    Except String QueryResult × DatabaseManager :=
  if !db.is_connected then
    (.error "Not connected to database", db)
  else
    let key := cacheKey sql params
    match db.cache.lookup key with
    | some r => (.ok r, db)
    | none =>
      let cleaned := cleanParams params
      let r : QueryResult := ⟨sql, cleaned, now, cleaned.length⟩
      (.ok r, { db with cache := (key, r) :: db.cache })

/- ## process_data -/

/-- One input record of `process_data`: `item.get("type")` and
`item.get("value")`. A `none` value models both an absent `"value"` key and
an explicitly stored `None`, which `dict.get` cannot tell apart. -/
structure Item where
  type : Option String
  value : Option PyValue

/-- The diagnostic printed for a record with no value:
`error_msg.strip()` of the triple-quoted message in the source. -/
def missingValueMsg : String :=
  "Error: Item missing required \x27value\x27 field.\n" ++
  "            This is a multi-line string to demonstrate\n" ++
  "            syntax highlighting for different string types."

/-- Python `s.upper()` (restricted to ASCII, which covers the script's
inputs). Defined structurally over the character list so that it evaluates
by reduction. -/
def pyUpper (s : String) : String :=
  ⟨s.data.map Char.toUpper⟩

/-- The `match item.get("type")` dispatch applied to a present value:
`"string"` upper-cases (raising `AttributeError` on a non-string),
`"number"` doubles via `pyMulTwo` (raising `TypeError` on a dict),
`"boolean"` negates the value's truthiness, and any other or absent tag
renders the raw value under the `Unknown` label. -/
def transform (tag : Option String) (v : PyValue) : Except String String :=
  match tag with
  | some "string" =>
      match v with
      | .str s => .ok ("String: " ++ pyUpper s)
      | w => .error ("AttributeError: " ++ w.typeName ++ " object has no attribute upper")
  | some "number" =>
      match pyMulTwo v with
      | some r => .ok ("Number: " ++ pyStr r)
      | none => .error ("TypeError: unsupported operand types for multiply: " ++ v.typeName ++ " and int")
  | some "boolean" => .ok ("Boolean: " ++ (if !v.truthy then "True" else "False"))
  | _ => .ok ("Unknown: " ++ pyStr v)

/-- The loop body of `process_data` starting at positional index `i`:
returns the produced display strings and the printed diagnostics, or the
first uncaught exception. -/
def processFrom : Nat → List Item → Except String (List String × List String)
  | _, [] => .ok ([], [])
  | i, item :: rest =>
    match item.value with
    | some v =>
      match transform item.type v with
      | .error e => .error e
      | .ok processed =>
        match processFrom (i + 1) rest with
        | .error e => .error e
        | .ok (rs, ds) => .ok (("Item " ++ toString i ++ ": " ++ processed) :: rs, ds)
    | none =>
      match processFrom (i + 1) rest with
      | .error e => .error e
      | .ok (rs, ds) => .ok (rs, missingValueMsg :: ds)

/-- `process_data(items)`: enumerate from index 0. -/
def process_data (items : List Item) : Except String (List String × List String) :=
  processFrom 0 items

/- ## Theorems -/

/-- C9: `connect()` sets the connection flag to true and returns true; its
failure-reporting branch is unreachable in normal operation, so after
`connect()` returns, `is_connected` is true. -/
theorem connect_sets_flag (db : DatabaseManager) :
    (db.connect).1 = true ∧ (db.connect).2.is_connected = true :=
  ⟨rfl, rfl⟩

/-- C3: calling `query` while the connection flag is false raises the
"Not connected to database" error and leaves the manager — in particular its
cache mapping — unchanged. -/
theorem query_not_connected (db : DatabaseManager) (sql : String)
    (params : Option (List String)) (now : String)
    (h : db.is_connected = false) :
    db.query sql params now = (.error "Not connected to database", db) := by
  simp [DatabaseManager.query, h]

/-- Witness for C3 at a concrete disconnected manager. -/
theorem query_not_connected_witness :
    (DatabaseManager.mk0 "postgresql://localhost:5432/mydb").query
      "SELECT 1" (some ["a"]) "T0" =
      (.error "Not connected to database", DatabaseManager.mk0 "postgresql://localhost:5432/mydb") :=
  query_not_connected _ "SELECT 1" (some ["a"]) "T0" rfl

/-- The demo's manager right after `connect()` succeeded: empty cache,
connected. -/
def demoDB : DatabaseManager :=
  ((DatabaseManager.mk0 "postgresql://localhost:5432/mydb").connect).2

/-- C1: on a connected manager, running the same `query(sql, params)` twice
returns the very same record both times (hence identical sql text, cleaned
params and rows_affected count), the second call leaves the manager — in
particular the cached entry — unchanged, and when the first call was a
fresh miss its timestamp is the first call's clock value `t1`; the second
call returns that stored timestamp no matter its own clock value `t2`. -/
theorem query_twice_idempotent (db : DatabaseManager) (sql : String)
    (params : Option (List String)) (t1 t2 : String)
    (h : db.is_connected = true) :
    ∃ r1, (db.query sql params t1).1 = .ok r1 ∧
      ((db.query sql params t1).2.query sql params t2).1 = .ok r1 ∧
      ((db.query sql params t1).2.query sql params t2).2 = (db.query sql params t1).2 ∧
      (db.cache.lookup (cacheKey sql params) = none → r1.timestamp = t1) := by
  cases hl : db.cache.lookup (cacheKey sql params) with
  | some r =>
      refine ⟨r, ?_, ?_, ?_, ?_⟩ <;> simp [DatabaseManager.query, h, hl]
  | none =>
      refine ⟨⟨sql, cleanParams params, t1, (cleanParams params).length⟩, ?_, ?_, ?_, ?_⟩ <;>
        simp [DatabaseManager.query, h, hl, List.lookup]

/-- Witness for C1 on the demo manager with two distinct clock values. -/
theorem query_twice_idempotent_witness :
    ∃ r1, (demoDB.query "SELECT 1" (some ["a"]) "T1").1 = .ok r1 ∧
      ((demoDB.query "SELECT 1" (some ["a"]) "T1").2.query "SELECT 1" (some ["a"]) "T2").1 = .ok r1 ∧
      ((demoDB.query "SELECT 1" (some ["a"]) "T1").2.query "SELECT 1" (some ["a"]) "T2").2 =
        (demoDB.query "SELECT 1" (some ["a"]) "T1").2 ∧
      (demoDB.cache.lookup (cacheKey "SELECT 1" (some ["a"])) = none → r1.timestamp = "T1") :=
  query_twice_idempotent demoDB "SELECT 1" (some ["a"]) "T1" "T2" rfl

/-- C2: the parameter lists `[" a ", "b"]` and `["a", "b"]` clean to the
same list, yet with the same query text they derive different cache keys
(the key uses the raw list's string form), so querying both on a fresh
connected manager stores two separate cache entries. -/
theorem cache_key_raw_sensitivity :
    cleanParams (some [" a ", "b"]) = cleanParams (some ["a", "b"]) ∧
    cacheKey "SELECT 1" (some [" a ", "b"]) ≠ cacheKey "SELECT 1" (some ["a", "b"]) ∧
    ((demoDB.query "SELECT 1" (some [" a ", "b"]) "T1").2.query
        "SELECT 1" (some ["a", "b"]) "T2").2.cache.length = 2 := by
  refine ⟨by decide, by decide, by decide⟩

/-- The parameter cleaning as C4 words it: every entry stripped of
surrounding whitespace, empty entries dropped, original order preserved —
read as stripping first, so that the result never contains an empty
entry. -/
def cleanParamsSpec (params : Option (List String)) : List String :=
  ((params.getD []).map pyStrip).filter (fun p => !(p == ""))

/-- C4 counterexample: on the whitespace-only parameter list `["   "]` the
code keeps the entry (it is non-empty before stripping) and strips it to
`""`, so the returned record's params contain an empty entry and
rows_affected is 1, while the claim's cleaned list is empty. -/
theorem query_clean_order_counterexample :
    (demoDB.query "SELECT 1" (some ["   "]) "T1").1 =
      .ok ⟨"SELECT 1", [""], "T1", 1⟩ ∧
    cleanParamsSpec (some ["   "]) = [] := by
  refine ⟨by decide, by decide⟩

/-- C4 (amended): on a cache miss while connected, `query` returns a record
whose sql field is the original text, whose params field is the cleaned
list — entries that are empty before stripping are dropped, each surviving
entry is stripped of surrounding whitespace (so a whitespace-only entry
yields an empty string), order preserved — and whose rows_affected is that
list's length; the record is stored under the derived key. -/
theorem query_miss_builds_record (db : DatabaseManager) (sql : String)
    (params : Option (List String)) (now : String)
    (h : db.is_connected = true)
    (hmiss : db.cache.lookup (cacheKey sql params) = none) :
    (db.query sql params now).1 =
      .ok ⟨sql, cleanParams params, now, (cleanParams params).length⟩ ∧
    (db.query sql params now).2.cache.lookup (cacheKey sql params) =
      some ⟨sql, cleanParams params, now, (cleanParams params).length⟩ := by
  constructor <;> simp [DatabaseManager.query, h, hmiss, List.lookup]

/-- Witness for the amended C4 on a concrete miss with mixed parameters. -/
theorem query_miss_builds_record_witness :
    (demoDB.query "INSERT" (some ["  x ", "", "y"]) "T1").1 =
      .ok ⟨"INSERT", cleanParams (some ["  x ", "", "y"]), "T1",
           (cleanParams (some ["  x ", "", "y"])).length⟩ ∧
    (demoDB.query "INSERT" (some ["  x ", "", "y"]) "T1").2.cache.lookup
        (cacheKey "INSERT" (some ["  x ", "", "y"])) =
      some ⟨"INSERT", cleanParams (some ["  x ", "", "y"]), "T1",
            (cleanParams (some ["  x ", "", "y"])).length⟩ :=
  query_miss_builds_record demoDB "INSERT" (some ["  x ", "", "y"]) "T1" rfl rfl

/-- Every successful run of the loop body from index `i` produces: the
display strings of exactly the records with a present value, in input
order, labeled with their absolute positional indices; and one diagnostic
per record without a value. -/
theorem processFrom_ok_spec (items : List Item) : ∀ (i : Nat) (rs ds : List String),
    processFrom i items = .ok (rs, ds) →
    rs = (items.enumFrom i).filterMap (fun p =>
        match p.2.value with
        | none => none
        | some v => (transform p.2.type v).toOption.map
            (fun s => "Item " ++ toString p.1 ++ ": " ++ s)) ∧
    ds.length = (items.filter (fun it => it.value.isNone)).length ∧
    rs.length = (items.filter (fun it => it.value.isSome)).length := by
  induction items with
  | nil =>
      intro i rs ds h
      simp [processFrom] at h
      simp [h.1, h.2, List.enumFrom]
  | cons item rest ih =>
      intro i rs ds h
      obtain ⟨ty, val⟩ := item
      cases val with
      | some v =>
          simp only [processFrom] at h
          cases ht : transform ty v with
          | error e => rw [ht] at h; exact absurd h (by simp)
          | ok s =>
              rw [ht] at h
              cases hr : processFrom (i + 1) rest with
              | error e => rw [hr] at h; exact absurd h (by simp)
              | ok pr =>
                  obtain ⟨rs1, ds1⟩ := pr
                  rw [hr] at h
                  simp only [Except.ok.injEq, Prod.mk.injEq] at h
                  obtain ⟨h1, h2⟩ := h
                  obtain ⟨e1, e2, e3⟩ := ih (i + 1) rs1 ds1 hr
                  subst h1 h2
                  refine ⟨?_, ?_, ?_⟩
                  · simp [List.enumFrom, List.filterMap_cons, ht, e1, Except.toOption]
                  · simp [List.filter_cons, e2]
                  · simp [List.filter_cons, e3]
      | none =>
          simp only [processFrom] at h
          cases hr : processFrom (i + 1) rest with
          | error e => rw [hr] at h; exact absurd h (by simp)
          | ok pr =>
              obtain ⟨rs1, ds1⟩ := pr
              rw [hr] at h
              simp only [Except.ok.injEq, Prod.mk.injEq] at h
              obtain ⟨h1, h2⟩ := h
              obtain ⟨e1, e2, e3⟩ := ih (i + 1) rs1 ds1 hr
              subst h1 h2
              refine ⟨?_, ?_, ?_⟩
              · simp [List.enumFrom, List.filterMap_cons, e1]
              · simp [List.filter_cons, e2]
              · simp [List.filter_cons, e3]

/-- C6: in any successfully processed batch, a record without a value
(absent or explicitly None) contributes zero entries to the output
sequence and exactly one diagnostic emission — the diagnostic count is the
count of value-less records — while every record with a value still
contributes its entry, so the rest of the batch continues to be
processed. -/
theorem missing_value_skipped (items : List Item) (rs ds : List String)
    (h : process_data items = .ok (rs, ds)) :
    ds.length = (items.filter (fun it => it.value.isNone)).length ∧
    rs.length = (items.filter (fun it => it.value.isSome)).length :=
  ⟨(processFrom_ok_spec items 0 rs ds h).2.1,
   (processFrom_ok_spec items 0 rs ds h).2.2⟩

/-- Witness for C6: one value-less record among two. -/
theorem missing_value_skipped_witness :
    ([missingValueMsg] : List String).length =
      (([⟨some "string", none⟩, ⟨some "number", some (.int 1)⟩] : List Item).filter
        (fun it => it.value.isNone)).length ∧
    (["Item 1: Number: 2"] : List String).length =
      (([⟨some "string", none⟩, ⟨some "number", some (.int 1)⟩] : List Item).filter
        (fun it => it.value.isSome)).length :=
  missing_value_skipped [⟨some "string", none⟩, ⟨some "number", some (.int 1)⟩]
    ["Item 1: Number: 2"] [missingValueMsg] (by decide)

/-- C7: a successful batch's output has exactly one display string per
record with a present value, in input order, each labeled with the
record's positional index in the original input sequence — the indices of
skipped records are omitted, not renumbered, since the label comes from
the enumeration of the full input. -/
theorem output_order_and_indices (items : List Item) (rs ds : List String)
    (h : process_data items = .ok (rs, ds)) :
    rs = items.enum.filterMap (fun p =>
        match p.2.value with
        | none => none
        | some v => (transform p.2.type v).toOption.map
            (fun s => "Item " ++ toString p.1 ++ ": " ++ s)) ∧
    rs.length = (items.filter (fun it => it.value.isSome)).length := by
  have hs := processFrom_ok_spec items 0 rs ds h
  exact ⟨by simpa [List.enum] using hs.1, hs.2.2⟩

/-- Witness for C7: the skipped middle record's index 1 is omitted and the
third record keeps its original index 2. -/
theorem output_order_and_indices_witness :
    (["Item 0: Boolean: False", "Item 2: Unknown: 7"] : List String) =
      ([⟨some "boolean", some (.bool true)⟩, ⟨none, none⟩,
        ⟨none, some (.int 7)⟩] : List Item).enum.filterMap (fun p =>
        match p.2.value with
        | none => none
        | some v => (transform p.2.type v).toOption.map
            (fun s => "Item " ++ toString p.1 ++ ": " ++ s)) ∧
    (["Item 0: Boolean: False", "Item 2: Unknown: 7"] : List String).length =
      (([⟨some "boolean", some (.bool true)⟩, ⟨none, none⟩,
         ⟨none, some (.int 7)⟩] : List Item).filter (fun it => it.value.isSome)).length :=
  output_order_and_indices
    [⟨some "boolean", some (.bool true)⟩, ⟨none, none⟩, ⟨none, some (.int 7)⟩]
    ["Item 0: Boolean: False", "Item 2: Unknown: 7"] [missingValueMsg] (by decide)

/-- C5: for a record with a present value, `process_data` dispatches on the
type tag: "string" upper-cases the value under the `String` label ("hello"
gives "HELLO"), "number" doubles it under the `Number` label (21 gives
"42"), "boolean" yields the negation under the `Boolean` label (true gives
"False"), and any other or absent tag renders the value's raw textual form
under the `Unknown` label (as for [1, 2, 3]). -/
theorem dispatch_by_tag :
    (∀ s : String, transform (some "string") (.str s) =
      .ok ("String: " ++ pyUpper s)) ∧
    (∀ n : Int, transform (some "number") (.int n) =
      .ok ("Number: " ++ toString (n * 2))) ∧
    (∀ b : Bool, transform (some "boolean") (.bool b) =
      .ok ("Boolean: " ++ (if b then "False" else "True"))) ∧
    (∀ (tag : Option String) (v : PyValue), tag ≠ some "string" →
      tag ≠ some "number" → tag ≠ some "boolean" →
      transform tag v = .ok ("Unknown: " ++ pyStr v)) ∧
    process_data [⟨some "string", some (.str "hello")⟩,
        ⟨some "number", some (.int 21)⟩, ⟨some "boolean", some (.bool true)⟩,
        ⟨some "unknown", some (.list [.int 1, .int 2, .int 3])⟩] =
      .ok (["Item 0: String: HELLO", "Item 1: Number: 42",
            "Item 2: Boolean: False", "Item 3: Unknown: [1, 2, 3]"], []) := by
  refine ⟨fun s => rfl, fun n => rfl, fun b => by cases b <;> rfl, ?_, by decide⟩
  intro tag v h1 h2 h3
  unfold transform
  split
  · exact absurd rfl h1
  · exact absurd rfl h2
  · exact absurd rfl h3
  · rfl

/-- Witness for C5's default arm at a concrete unrecognized tag. -/
theorem dispatch_by_tag_witness :
    transform (some "unknown") (.list [.int 1, .int 2, .int 3]) =
      .ok ("Unknown: " ++ pyStr (.list [.int 1, .int 2, .int 3])) :=
  dispatch_by_tag.2.2.2.1 (some "unknown") (.list [.int 1, .int 2, .int 3])
    (by decide) (by decide) (by decide)

/-- A record whose present value makes its `transform` raise aborts the
whole loop: whatever well-processed records precede it and whatever
follows, `processFrom` returns that error and no output. -/
theorem processFrom_append_error (pre : List Item) :
    ∀ (i : Nat) (btag : Option String) (post : List Item) (v : PyValue)
      (e : String), transform btag v = .error e →
    (∃ rs ds, processFrom i pre = .ok (rs, ds)) →
    processFrom i (pre ++ (⟨btag, some v⟩ : Item) :: post) = .error e := by
  induction pre with
  | nil =>
      intro i btag post v e hbt _
      simp only [List.nil_append, processFrom]
      simp [hbt]
  | cons p pre' ih =>
      intro i btag post v e hbt hok
      obtain ⟨rs, ds, hok⟩ := hok
      obtain ⟨pty, pval⟩ := p
      cases pval with
      | some w =>
          simp only [List.cons_append, processFrom] at hok ⊢
          cases ht : transform pty w with
          | error e2 => simp [ht] at hok
          | ok s =>
              cases hr : processFrom (i + 1) pre' with
              | error e2 => simp [ht, hr] at hok
              | ok pr =>
                  have hnext := ih (i + 1) btag post v e hbt ⟨pr.1, pr.2, by rw [hr]⟩
                  simp [List.append_eq, hnext, ht]
      | none =>
          simp only [List.cons_append, processFrom] at hok ⊢
          cases hr : processFrom (i + 1) pre' with
          | error e2 => simp [hr] at hok
          | ok pr =>
              have hnext := ih (i + 1) btag post v e hbt ⟨pr.1, pr.2, by rw [hr]⟩
              simp [List.append_eq, hnext]

/-- C8: a value whose `* 2` fails under the "number" tag raises, and the
failure is not caught per-record: with any well-processed records before it
and anything after it, `process_data` on the whole batch returns that error
and produces no output sequence. -/
theorem number_tag_failure_aborts_batch (pre post : List Item) (v : PyValue)
    (e : String) (rs ds : List String)
    (hfail : transform (some "number") v = .error e)
    (hpre : process_data pre = .ok (rs, ds)) :
    process_data (pre ++ (⟨some "number", some v⟩ : Item) :: post) = .error e :=
  processFrom_append_error pre 0 (some "number") post v e hfail ⟨rs, ds, hpre⟩

/-- Witness for C8: a dict under the "number" tag (Python's `* 2` raises
`TypeError` on it) aborts a batch whose first record processed fine. -/
theorem number_tag_failure_aborts_batch_witness :
    process_data ([⟨some "string", some (.str "ok")⟩] ++
        (⟨some "number", some (.dict [])⟩ : Item) ::
          [⟨some "boolean", some (.bool true)⟩]) =
      .error "TypeError: unsupported operand types for multiply: dict and int" :=
  number_tag_failure_aborts_batch [⟨some "string", some (.str "ok")⟩]
    [⟨some "boolean", some (.bool true)⟩] (.dict [])
    "TypeError: unsupported operand types for multiply: dict and int"
    ["Item 0: String: OK"] [] (by decide) (by decide)

/-- C10 counterexample: the record with tag "string" and the present,
non-null but falsy value 0 is not skipped, yet it contributes no output
entry either — `value.upper()` raises `AttributeError` and the whole batch
fails, refuting that every such record yields exactly one output entry. -/
theorem falsy_value_counterexample :
    process_data [⟨some "string", some (.int 0)⟩] =
      .error "AttributeError: int object has no attribute upper" := by
  decide

/-- C10 (amended): the presence test is an identity check against None,
not a truthiness check: a record with any present value — falsy ones
included — is never routed to the diagnostic path but reaches the
dispatch, and whenever its transformation succeeds it contributes exactly
one output entry (so false, 0 and "" under their compatible tags each
yield one entry); a falsy value under an incompatible tag instead raises
and aborts the batch. -/
theorem falsy_value_not_skipped :
    (∀ (i : Nat) (tag : Option String) (v : PyValue) (s : String)
      (rest : List Item) (rs ds : List String), transform tag v = .ok s →
      processFrom (i + 1) rest = .ok (rs, ds) →
      processFrom i ((⟨tag, some v⟩ : Item) :: rest) =
        .ok (("Item " ++ toString i ++ ": " ++ s) :: rs, ds)) ∧
    process_data [⟨some "boolean", some (.bool false)⟩] =
      .ok (["Item 0: Boolean: True"], []) ∧
    process_data [⟨some "number", some (.int 0)⟩] =
      .ok (["Item 0: Number: 0"], []) ∧
    process_data [⟨some "string", some (.str "")⟩] =
      .ok (["Item 0: String: "], []) := by
  refine ⟨?_, by decide, by decide, by decide⟩
  intro i tag v s rest rs ds h1 h2
  simp [processFrom, h1, h2]

/-- Witness for C10's general part at the falsy value `false`. -/
theorem falsy_value_not_skipped_witness :
    processFrom 0 [(⟨some "boolean", some (.bool false)⟩ : Item)] =
      .ok (["Item 0: Boolean: True"], []) :=
  falsy_value_not_skipped.1 0 (some "boolean") (.bool false) "Boolean: True"
    [] [] [] (by decide) (by decide)
